import Mathlib

/-!
Verification of the two build-time generators of this repository:
`gen.py` (package-config aggregator, BUILD.gn / bootfs manifest / depfile
writer, gn invoker) and `public/lib/fidl/build/make_crate.py` (Rust crate
synthesizer for generated fidl sources).

The filesystem and subprocess effects of `gen.py` are embedded as a trace
of events produced by a pure `main` function over an environment that
records the parse outcome of each config file, the command-line output
directory, the relevant absolute paths, whether the package gen directory
already exists, whether `os.makedirs` succeeds, and the exit status of the
`gn` subprocess.  File contents are built by the same sequence of
string appends that the Python code performs on each file handle.

Paths built with `os.path.join(a, b)` on a relative `b` are modelled as
`a ++ "/" ++ b`.  In `make_crate.py` paths are modelled as lists of
components (the segments between "/" separators), which is what
`os.path.relpath`, `os.path.basename` and `os.path.dirname` compute with;
all paths handed to one call are taken to be absolute (no ".." or "."
components), as they are after Python's `abspath` normalisation.
-/

namespace Fuchsia

/-- Concatenation of a list of strings (`"".join` style). -/
def strConcat (l : List String) : String := l.foldr (fun a b => a ++ b) ""

/-- Model of `os.path.join(a, b)` for a relative second component. -/
def pjoin (a b : String) : String := a ++ "/" ++ b

/-- One entry of a config's `"binaries"` list after a successful parse:
the dict `{"binary": ..., "bootfs_path": ...}` built by `parse_config`. -/
structure BinaryEntry where
  binary : String
  bootfs_path : String
deriving DecidableEq, Repr

/-- One raw object of a config's `"binaries"` JSON list: each of the two
required string fields may be missing (`none` models an absent key, which
raises `KeyError` when subscripted). -/
structure BinObj where
  binary : Option String
  bootfs_path : Option String
deriving DecidableEq, Repr

/-- The parse outcome of one config file: either `json.load` itself raises
(invalid JSON), or it yields an object whose `"label"` key and
`"binaries"` key may each be present or absent. -/
inductive ConfigFile where
  | invalidJson : ConfigFile
  | parsed (label : Option String) (binaries : Option (List BinObj)) : ConfigFile
deriving DecidableEq, Repr

/-- The hard-coded `package_configs` list of `gen.py`. -/
def package_configs : List String := ["fortune", "ftl", "mojo", "mtl"]

/-- The loop body of `parse_config`: walk the `"binaries"` list, appending
one `BinaryEntry` per object; the first object with a missing `"binary"`
or `"bootfs_path"` key raises `KeyError`, leaving the accumulator with the
entries appended so far (the exception is caught by the caller). -/
def appendBinaries : List BinObj → List BinaryEntry → List BinaryEntry
  | [], acc => acc
  | b :: rest, acc =>
    match b.binary with
    | none => acc
    | some bin =>
      match b.bootfs_path with
      | none => acc
      | some bp => appendBinaries rest (acc ++ [BinaryEntry.mk bin bp])

/-- Model of `parse_config(config, labels, binaries)` of `gen.py`: on a successful
`json.load`, append `c["label"]` to `labels`, then walk `c["binaries"]`
appending entries; any raised exception is caught after the appends made
so far, and the (possibly partially extended) state is kept. -/
def parse_config (config : ConfigFile) (labels : List String)
    (binaries : List BinaryEntry) : List String × List BinaryEntry :=
  match config with
  | ConfigFile.invalidJson => (labels, binaries)
  | ConfigFile.parsed lbl bins =>
    match lbl with
    | none => (labels, binaries)
    | some l =>
      match bins with
      | none => (labels ++ [l], binaries)
      | some bs => (labels ++ [l], appendBinaries bs binaries)

/-- The config-collection loop of `main`: fold `parse_config` over the
parse outcomes of the files of `package_configs`, in list order, starting
from the two empty accumulators. -/
def collectConfigs (configs : List ConfigFile) :
    List String × List BinaryEntry :=
  configs.foldl (fun st c => parse_config c st.1 st.2) ([], [])

/-- The first chunk `main` writes to `BUILD.gn` (header, group opening,
`testonly`, and the fixed `//packages/mkbootfs` dependency). -/
def gnHeader : String :=
  "\n# NOTE: This file is auto-generated by gen.py. Do not edit by hand.\n\ngroup(\"default\") \x7b\n  testonly = true\n  deps = [\n    \"//packages/mkbootfs\",\n"

/-- The chunk `main` writes to `BUILD.gn` for one collected label. -/
def labelChunk (l : String) : String := "\n    \"" ++ l ++ "\","

/-- The final chunk `main` writes to `BUILD.gn`. -/
def gnFooter : String := "\n  ]\n\x7d\n"

/-- The full contents of the generated `BUILD.gn`: header, then one chunk
per collected label in order, then the footer. -/
def buildGnContent (labels : List String) : String :=
  labels.foldl (fun acc l => acc ++ labelChunk l) gnHeader ++ gnFooter

/-- One line of `user.bootfs.manifest`: `bootfs_path=<outdir>/<binary>`. -/
def manifestLine (outdirPath : String) (b : BinaryEntry) : String :=
  b.bootfs_path ++ "=" ++ pjoin outdirPath b.binary ++ "\n"

/-- The full contents of `user.bootfs.manifest`: one line appended per
collected binary entry, in order. -/
def manifestContent (outdirPath : String) (binaries : List BinaryEntry) :
    String :=
  binaries.foldl (fun acc b => acc ++ manifestLine outdirPath b) ""

/-- The full contents of `user.bootfs.d`: the fixed target-and-manifest
text, then one ` <binary>` chunk per collected entry, then a newline. -/
def depfileContent (binaries : List BinaryEntry) : String :=
  (binaries.foldl (fun acc b => acc ++ (" " ++ b.binary))
    "user.bootfs: gen/packages/mkbootfs/user.bootfs.manifest") ++ "\n"

/-- A filesystem / subprocess event performed by `main`, in order. -/
inductive Event where
  | chdir (path : String)
  | writeFile (path : String) (content : String)
  | mkdirs (path : String)
  | checkCall (argv : List String)
deriving DecidableEq, Repr

/-- The outcome of a run of `main`: normal return 0, an uncaught
`os.makedirs` failure, or an uncaught `subprocess.CalledProcessError`. -/
inductive RunResult where
  | ok
  | mkdirFailed
  | subprocessFailed (code : Nat)
deriving DecidableEq, Repr

/-- The environment of one run of `gen.py`: the parse outcome of each
config file of the fixed list, the `--outdir` argument, the absolute
packages directory (`os.path.dirname(__file__)`) and its parent
(`base_path`), whether `pkg_gen_dir` already exists, whether `os.makedirs`
succeeds when attempted, and the `gn` subprocess exit status. -/
structure Env where
  configs : List ConfigFile
  outdir : String
  packagesPath : String
  basePath : String
  pkgGenDirExists : Bool
  mkdirOk : Bool
  gnExit : Nat
deriving DecidableEq, Repr

/-- The path `outdir_path = os.path.join(base_path, args.outdir)`. -/
def outdirPathOf (env : Env) : String := pjoin env.basePath env.outdir

/-- The path `pkg_gen_dir = os.path.join(outdir_path, "gen", "packages", "mkbootfs")`. -/
def pkgGenDirOf (env : Env) : String :=
  pjoin (pjoin (pjoin (outdirPathOf env) "gen") "packages") "mkbootfs"

/-- The argument vector of the `gn` invocation at the end of `main`. -/
def gnArgv (env : Env) : List String :=
  [pjoin (pjoin env.basePath "buildtools") "gn", "gen", outdirPathOf env,
   "--root=" ++ env.basePath,
   "--dotfile=" ++ pjoin (pjoin env.basePath "packages") "dot_gn",
   "--script-executable=/usr/bin/env"]

/-- The three events following a successful directory check/creation:
write the manifest, write the depfile, invoke `gn`. -/
def writePhase (env : Env) (binaries : List BinaryEntry) : List Event :=
  [Event.writeFile (pjoin (pkgGenDirOf env) "user.bootfs.manifest")
     (manifestContent (outdirPathOf env) binaries),
   Event.writeFile (pjoin (pkgGenDirOf env) "user.bootfs.d")
     (depfileContent binaries),
   Event.checkCall (gnArgv env)]

/-- The result of the run once the `gn` subprocess has been reached:
`subprocess.check_call` raises exactly on a non-zero exit status. -/
def finalResult (env : Env) : RunResult :=
  if env.gnExit = 0 then RunResult.ok
  else RunResult.subprocessFailed env.gnExit

/-- Model of `main()` of `gen.py` as a trace of events plus a run outcome: chdir to
the packages directory, collect the configs, write `BUILD.gn`, create
`pkg_gen_dir` if absent (aborting on failure), write the manifest and the
depfile, and invoke `gn`. -/
def main (env : Env) : List Event × RunResult :=
  let st := collectConfigs env.configs
  let pre : List Event :=
    [Event.chdir env.packagesPath,
     Event.writeFile "BUILD.gn" (buildGnContent st.1)]
  if env.pkgGenDirExists then
    (pre ++ writePhase env st.2, finalResult env)
  else if env.mkdirOk then
    (pre ++ [Event.mkdirs (pkgGenDirOf env)] ++ writePhase env st.2,
     finalResult env)
  else
    (pre ++ [Event.mkdirs (pkgGenDirOf env)], RunResult.mkdirFailed)

/-- The `(path, contents)` pairs of the file writes of a trace, in order. -/
def writesOf (tr : List Event) : List (String × String) :=
  tr.filterMap (fun e =>
    match e with
    | Event.writeFile p c => some (p, c)
    | _ => none)

/-- The longest well-formed initial run of a `"binaries"` JSON list: the
entries before the first object missing a `"binary"` or `"bootfs_path"`
key. -/
def takeValidEntries : List BinObj → List BinaryEntry
  | [] => []
  | b :: rest =>
    match b.binary with
    | none => []
    | some bin =>
      match b.bootfs_path with
      | none => []
      | some bp => BinaryEntry.mk bin bp :: takeValidEntries rest

/-- The label a config contributes: present exactly when `json.load`
succeeded and the `"label"` key exists. -/
def configLabel : ConfigFile → Option String
  | ConfigFile.parsed (some l) _ => some l
  | _ => none

/-- The binary entries a config contributes: the well-formed initial run
of its `"binaries"` list, provided `json.load` succeeded and both the
`"label"` and `"binaries"` keys exist. -/
def configEntries : ConfigFile → List BinaryEntry
  | ConfigFile.parsed (some _) (some bs) => takeValidEntries bs
  | _ => []

/-- A config on which `parse_config` runs to completion without raising:
valid JSON, a `"label"` key, a `"binaries"` key, and both string fields on
every listed object. -/
def isValidConfig : ConfigFile → Bool
  | ConfigFile.parsed (some _) (some bs) =>
    bs.all (fun b => b.binary.isSome && b.bootfs_path.isSome)
  | _ => false

theorem strConcat_cons (s : String) (l : List String) :
    strConcat (s :: l) = s ++ strConcat l := rfl

theorem foldl_append_eq {α : Type} (f : α → String) (l : List α)
    (init : String) :
    l.foldl (fun acc x => acc ++ f x) init = init ++ strConcat (l.map f) := by
  induction l generalizing init with
  | nil => simp [strConcat, String.append_empty]
  | cons x xs ih =>
    simp only [List.foldl_cons, List.map_cons, strConcat_cons]
    rw [ih, String.append_assoc]

theorem appendBinaries_eq (bs : List BinObj) (acc : List BinaryEntry) :
    appendBinaries bs acc = acc ++ takeValidEntries bs := by
  induction bs generalizing acc with
  | nil => simp [appendBinaries, takeValidEntries]
  | cons b rest ih =>
    cases hb : b.binary <;> cases hp : b.bootfs_path <;>
      simp [appendBinaries, takeValidEntries, hb, hp, ih]

theorem parse_config_eq (c : ConfigFile) (labels : List String)
    (binaries : List BinaryEntry) :
    parse_config c labels binaries
      = (labels ++ (configLabel c).toList, binaries ++ configEntries c) := by
  cases c with
  | invalidJson => simp [parse_config, configLabel, configEntries]
  | parsed lbl bins =>
    cases lbl <;> cases bins <;>
      simp [parse_config, configLabel, configEntries, appendBinaries_eq]

theorem collect_loop_eq (cfgs : List ConfigFile) (labels : List String)
    (binaries : List BinaryEntry) :
    cfgs.foldl (fun st c => parse_config c st.1 st.2) (labels, binaries)
      = (labels ++ cfgs.filterMap configLabel,
         binaries ++ cfgs.flatMap configEntries) := by
  induction cfgs generalizing labels binaries with
  | nil => simp
  | cons c rest ih =>
    rw [List.foldl_cons, parse_config_eq, ih]
    cases hc : configLabel c <;>
      simp [hc, List.filterMap_cons, List.flatMap_cons, List.append_assoc]

theorem collectConfigs_eq (cfgs : List ConfigFile) :
    collectConfigs cfgs
      = (cfgs.filterMap configLabel, cfgs.flatMap configEntries) := by
  simpa [collectConfigs] using collect_loop_eq cfgs [] []

theorem buildGnContent_eq (labels : List String) :
    buildGnContent labels
      = gnHeader ++ strConcat (labels.map labelChunk) ++ gnFooter := by
  simp [buildGnContent, foldl_append_eq]

theorem manifestContent_eq (outdirPath : String)
    (binaries : List BinaryEntry) :
    manifestContent outdirPath binaries
      = strConcat (binaries.map (manifestLine outdirPath)) := by
  simp [manifestContent, foldl_append_eq, String.empty_append]

theorem depfileContent_eq (binaries : List BinaryEntry) :
    depfileContent binaries
      = "user.bootfs: gen/packages/mkbootfs/user.bootfs.manifest"
          ++ strConcat (binaries.map (fun b => " " ++ b.binary)) ++ "\n" := by
  simp [depfileContent, foldl_append_eq]

/-- An abstract view of the generated build-graph group, following the
spec: a group name, a test-only marker, and an ordered dependency list. -/
structure GnGroup where
  name : String
  testonly : Bool
  deps : List String
deriving DecidableEq, Repr

/-- Render the dependency list of the generated group in the exact layout
`gen.py` produces: the first dependency on the header line (followed by a
newline), each later dependency preceded by a newline. -/
def renderDeps : List String → String
  | [] => ""
  | d :: ds =>
    "    \"" ++ d ++ "\",\n"
      ++ strConcat (ds.map (fun l => "\n    \"" ++ l ++ "\","))

/-- Render an abstract `GnGroup` in the exact layout of the generated
`BUILD.gn`: the auto-generated banner, the group header, a
`testonly = true` line exactly when the group is marked test-only, and
the dependency list verbatim, in order, with no deduplication. -/
def renderGroup (g : GnGroup) : String :=
  "\n# NOTE: This file is auto-generated by gen.py. Do not edit by hand.\n\ngroup(\"" ++ g.name ++ "\") \x7b\n"
    ++ (match g.testonly with
        | true => "  testonly = true\n"
        | false => "")
    ++ "  deps = [\n" ++ renderDeps g.deps ++ "\n  ]\n\x7d\n"

/-- C1: for every list of parsed configs, the emitted `BUILD.gn` defines
the group `"default"` marked test-only whose dependency list is exactly
the fixed bootstrap target `"//packages/mkbootfs"` followed by each
config's label in config-list order (the labels collected by the run, in
order, with no deduplication or sorting — duplicates pass through). -/
theorem C1_build_graph_group (cfgs : List ConfigFile) :
    buildGnContent (collectConfigs cfgs).1
      = renderGroup (GnGroup.mk "default" true
          ("//packages/mkbootfs" :: (collectConfigs cfgs).1))
    ∧ (collectConfigs cfgs).1 = cfgs.filterMap configLabel := by
  rw [collectConfigs_eq]
  refine ⟨?_, rfl⟩
  rw [buildGnContent_eq]
  unfold renderGroup renderDeps
  have hmap :
      (cfgs.filterMap configLabel).map (fun l => "\n    \"" ++ l ++ "\",")
        = (cfgs.filterMap configLabel).map labelChunk := rfl
  simp only [hmap]
  generalize strConcat ((cfgs.filterMap configLabel).map labelChunk) = mid
  unfold gnFooter
  simp only [← String.append_assoc]
  congr 1

/-- C2: the boot manifest holds exactly one line per collected
`BinaryEntry`, in input order, each of the form
`bootfs_path=<outdir>/<binary>`; in particular, for the single config
with label `"//a"` and binary entry `("a.bin", "bin/a")` and the output
directory `/src/out/Debug`, the manifest is the single line
`bin/a=/src/out/Debug/a.bin`. -/
theorem C2_manifest_lines (outdirPath : String)
    (binaries : List BinaryEntry) :
    manifestContent outdirPath binaries
      = strConcat (binaries.map (fun b =>
          b.bootfs_path ++ "=" ++ pjoin outdirPath b.binary ++ "\n"))
    ∧ manifestContent "/src/out/Debug"
        (collectConfigs [ConfigFile.parsed (some "//a")
          (some [BinObj.mk (some "a.bin") (some "bin/a")])]).2
      = "bin/a=/src/out/Debug/a.bin\n" := by
  constructor
  · exact manifestContent_eq outdirPath binaries
  · decide

/-- C3 counterexample: a config that is valid JSON with a `"label"` key
and whose second binary object lacks `"bootfs_path"` does not leave the
shared sequences as they were: the label and the first (well-formed)
binary entry have already been appended when the failure is raised. -/
theorem C3_counterexample_partial_entries_remain :
    parse_config (ConfigFile.parsed (some "//x")
        (some [BinObj.mk (some "b1") (some "p1"),
               BinObj.mk (some "b2") none])) [] []
      ≠ (([], []) : List String × List BinaryEntry)
    ∧ parse_config (ConfigFile.parsed (some "//x")
        (some [BinObj.mk (some "b1") (some "p1"),
               BinObj.mk (some "b2") none])) [] []
      = (["//x"], [BinaryEntry.mk "b1" "p1"]) := by
  decide

/-- C3 amended: a config whose JSON fails to load, or which lacks the
`"label"` key, contributes nothing; otherwise the label is appended and
the well-formed initial run of the `"binaries"` list is appended — the
appends made before a mid-list failure remain in the shared sequences
(partial contributions persist), and processing continues with the next
file. -/
theorem C3_amended_parse_config_contribution (c : ConfigFile)
    (labels : List String) (binaries : List BinaryEntry) :
    parse_config c labels binaries
      = (labels ++ (configLabel c).toList, binaries ++ configEntries c) :=
  parse_config_eq c labels binaries

/-- A depfile line in the downstream build tool's syntax: a target, then
each dependency preceded by one space, then a newline. -/
def renderDepfile (target : String) (deps : List String) : String :=
  target ++ ":" ++ strConcat (deps.map (fun d => " " ++ d)) ++ "\n"

/-- Split a character list at spaces (a simple tokenizer used to observe
the depfile's token structure). -/
def wordsAux : List Char → List Char → List (List Char)
  | [], acc => [acc.reverse]
  | c :: cs, acc =>
    if c = ' ' then acc.reverse :: wordsAux cs []
    else wordsAux cs (c :: acc)

/-- The space-separated tokens of a string. -/
def spaceTokens (s : String) : List String :=
  (wordsAux s.data []).map String.mk

/-- Whether `pat` occurs at the start of `s`. -/
def listStartsWith : List Char → List Char → Bool
  | [], _ => true
  | _ :: _, [] => false
  | p :: ps, c :: cs => p = c && listStartsWith ps cs

/-- Whether `pat` occurs as a contiguous segment of `s`. -/
def containsSeg (pat : List Char) : List Char → Bool
  | [] => pat.isEmpty
  | c :: cs => listStartsWith pat (c :: cs) || containsSeg pat cs

/-- C4 counterexample: for the single collected entry
`("a.bin", "bin/a")` the dependency file's one line is
`user.bootfs: gen/packages/mkbootfs/user.bootfs.manifest a.bin` — the
first token after the target is the manifest file's own path, not the
generator script (`gen.py` appears nowhere in the line). -/
theorem C4_counterexample_first_dep_not_script :
    depfileContent [BinaryEntry.mk "a.bin" "bin/a"]
      = "user.bootfs: gen/packages/mkbootfs/user.bootfs.manifest a.bin\n"
    ∧ spaceTokens (depfileContent [BinaryEntry.mk "a.bin" "bin/a"])
      = ["user.bootfs:", "gen/packages/mkbootfs/user.bootfs.manifest",
         "a.bin\n"]
    ∧ containsSeg "gen.py".data
        (depfileContent [BinaryEntry.mk "a.bin" "bin/a"]).data = false := by
  decide

/-- C4 amended: the dependency file is a single line whose target is
`user.bootfs` and whose dependency list is the manifest file's own
relative path `gen/packages/mkbootfs/user.bootfs.manifest` followed by
every binary's relative path, space-separated — the first token after
the target is the manifest file itself, not a generator script. -/
theorem C4_amended_depfile_structure (binaries : List BinaryEntry) :
    depfileContent binaries
      = renderDepfile "user.bootfs"
          ("gen/packages/mkbootfs/user.bootfs.manifest"
            :: binaries.map (fun b => b.binary)) := by
  rw [depfileContent_eq]
  unfold renderDepfile
  simp only [List.map_cons, List.map_map, strConcat_cons]
  have hmap :
      binaries.map ((fun d => " " ++ d) ∘ (fun b => b.binary))
        = binaries.map (fun b => " " ++ b.binary) := rfl
  simp only [hmap]
  generalize strConcat (binaries.map (fun b => " " ++ b.binary)) = mid
  simp only [← String.append_assoc]
  congr 2

/-- C5 counterexample: in a run where the package gen directory is
absent, the generated build-graph group file (`BUILD.gn`, one of the
run's output files) is written at trace position 1, strictly before the
recursive directory creation at trace position 2 — so an output file
write does occur before the output-directory creation step. -/
theorem C5_counterexample_write_before_mkdir :
    (main (Env.mk [] "out/Debug" "/src/packages" "/src" false true 0)).1
      = [Event.chdir "/src/packages",
         Event.writeFile "BUILD.gn" (buildGnContent []),
         Event.mkdirs "/src/out/Debug/gen/packages/mkbootfs",
         Event.writeFile "/src/out/Debug/gen/packages/mkbootfs/user.bootfs.manifest" "",
         Event.writeFile "/src/out/Debug/gen/packages/mkbootfs/user.bootfs.d"
           "user.bootfs: gen/packages/mkbootfs/user.bootfs.manifest\n",
         Event.checkCall ["/src/buildtools/gn", "gen", "/src/out/Debug",
           "--root=/src", "--dotfile=/src/packages/dot_gn",
           "--script-executable=/usr/bin/env"]]
    ∧ (main (Env.mk [] "out/Debug" "/src/packages" "/src" false true 0)).1[1]?
      = some (Event.writeFile "BUILD.gn" (buildGnContent []))
    ∧ (main (Env.mk [] "out/Debug" "/src/packages" "/src" false true 0)).1[2]?
      = some (Event.mkdirs "/src/out/Debug/gen/packages/mkbootfs") := by
  decide

/-- C5 amended: when the package gen directory under the output
directory is absent it is created recursively before the manifest and
dependency file writes, but after the build-graph group file write; if
the creation fails, the run aborts having already written the
build-graph file and having attempted neither the manifest nor the
dependency file write. -/
theorem C5_amended_mkdir_ordering (cfgs : List ConfigFile)
    (od pp bp : String) (g : Nat) :
    (main (Env.mk cfgs od pp bp false true g)).1
      = [Event.chdir pp,
         Event.writeFile "BUILD.gn" (buildGnContent (collectConfigs cfgs).1)]
        ++ [Event.mkdirs (pkgGenDirOf (Env.mk cfgs od pp bp false true g))]
        ++ writePhase (Env.mk cfgs od pp bp false true g)
            (collectConfigs cfgs).2
    ∧ main (Env.mk cfgs od pp bp false false g)
      = ([Event.chdir pp,
          Event.writeFile "BUILD.gn" (buildGnContent (collectConfigs cfgs).1),
          Event.mkdirs (pkgGenDirOf (Env.mk cfgs od pp bp false false g))],
         RunResult.mkdirFailed) := by
  constructor <;> rfl

/-- C6: a run whose config list has one invalid-JSON file among
otherwise valid configs behaves identically — trace and outcome — to the
run on the list with that file removed: the invalid file contributes no
label and no binary to any of the three output files, and every other
config's contributions are unchanged. -/
theorem C6_invalid_json_skipped (cs1 cs2 : List ConfigFile)
    (od pp bp : String) (e m : Bool) (g : Nat)
    (h : ∀ c ∈ cs1 ++ cs2, isValidConfig c = true) :
    main (Env.mk (cs1 ++ ConfigFile.invalidJson :: cs2) od pp bp e m g)
      = main (Env.mk (cs1 ++ cs2) od pp bp e m g) := by
  have hc : collectConfigs (cs1 ++ ConfigFile.invalidJson :: cs2)
      = collectConfigs (cs1 ++ cs2) := by
    simp [collectConfigs_eq, List.filterMap_append, List.flatMap_append,
      configLabel, configEntries]
  cases e <;> cases m <;>
    simp [main, hc, writePhase, outdirPathOf, pkgGenDirOf, gnArgv,
      finalResult]

/-- C6 witness. -/
theorem C6_invalid_json_skipped_witness :
    main (Env.mk [ConfigFile.parsed (some "//a")
          (some [BinObj.mk (some "a.bin") (some "bin/a")]),
        ConfigFile.invalidJson] "out/Debug" "/src/packages" "/src"
        true true 0)
      = main (Env.mk [ConfigFile.parsed (some "//a")
          (some [BinObj.mk (some "a.bin") (some "bin/a")])]
          "out/Debug" "/src/packages" "/src" true true 0) :=
  C6_invalid_json_skipped
    [ConfigFile.parsed (some "//a")
      (some [BinObj.mk (some "a.bin") (some "bin/a")])] []
    "out/Debug" "/src/packages" "/src" true true 0 (by decide)

/-- C7: the written files are a function of the config parse outcomes,
the output-directory argument and the fixed paths alone — two runs with
identical configs and output directory write byte-identical build-graph,
manifest and dependency files, regardless of whether the gen directory
already existed (as it does on the second run) and of the subprocess's
exit status. -/
theorem C7_deterministic_outputs (cfgs : List ConfigFile)
    (od pp bp : String) (e1 m1 : Bool) (g1 : Nat) (e2 m2 : Bool) (g2 : Nat)
    (h1 : e1 = true ∨ m1 = true) (h2 : e2 = true ∨ m2 = true) :
    writesOf (main (Env.mk cfgs od pp bp e1 m1 g1)).1
      = writesOf (main (Env.mk cfgs od pp bp e2 m2 g2)).1 := by
  cases e1 <;> cases e2 <;> cases m1 <;> cases m2 <;>
    simp_all [main, writesOf, writePhase, pkgGenDirOf, outdirPathOf]

/-- C7 witness. -/
theorem C7_deterministic_outputs_witness :
    writesOf (main (Env.mk [] "out/Debug" "/src/packages" "/src"
        false true 5)).1
      = writesOf (main (Env.mk [] "out/Debug" "/src/packages" "/src"
          true false 0)).1 :=
  C7_deterministic_outputs [] "out/Debug" "/src/packages" "/src"
    false true 5 true false 0 (Or.inr rfl) (Or.inl rfl)

/-- The argument vectors of the subprocess invocations of a trace. -/
def callsOf (tr : List Event) : List (List String) :=
  tr.filterMap (fun e =>
    match e with
    | Event.checkCall argv => some argv
    | _ => none)

/-- C8: every run that reaches the toolchain step performs exactly one
`gn` invocation, with the fixed argument vector, as the last step of the
trace's event sequence; the run returns 0 exactly when the subprocess
exits 0, and a non-zero subprocess status propagates as the fatal
outcome of the whole run. -/
theorem C8_subprocess_exit_propagation (cfgs : List ConfigFile)
    (od pp bp : String) (e m : Bool) (g : Nat)
    (h : e = true ∨ m = true) :
    ((main (Env.mk cfgs od pp bp e m g)).2 = RunResult.ok ↔ g = 0)
    ∧ (g ≠ 0 → (main (Env.mk cfgs od pp bp e m g)).2
        = RunResult.subprocessFailed g)
    ∧ callsOf (main (Env.mk cfgs od pp bp e m g)).1
      = [gnArgv (Env.mk cfgs od pp bp e m g)]
    ∧ (main (Env.mk cfgs od pp bp e m g)).1.getLast?
      = some (Event.checkCall (gnArgv (Env.mk cfgs od pp bp e m g))) := by
  cases e <;> cases m <;> by_cases hg : g = 0 <;>
    simp_all [main, callsOf, writePhase, finalResult]

/-- C8 witness. -/
theorem C8_subprocess_exit_propagation_witness :
    ((main (Env.mk [] "out/Debug" "/src/packages" "/src" true true 0)).2
        = RunResult.ok ↔ (0 : Nat) = 0)
    ∧ ((0 : Nat) ≠ 0 →
        (main (Env.mk [] "out/Debug" "/src/packages" "/src" true true 0)).2
          = RunResult.subprocessFailed 0)
    ∧ callsOf (main (Env.mk [] "out/Debug" "/src/packages" "/src"
        true true 0)).1
      = [gnArgv (Env.mk [] "out/Debug" "/src/packages" "/src" true true 0)]
    ∧ (main (Env.mk [] "out/Debug" "/src/packages" "/src"
        true true 0)).1.getLast?
      = some (Event.checkCall (gnArgv (Env.mk [] "out/Debug"
          "/src/packages" "/src" true true 0))) :=
  C8_subprocess_exit_propagation [] "out/Debug" "/src/packages" "/src"
    true true 0 (Or.inl rfl)

/-- Render a component-list path as a string (`"/".join`); the empty
list renders as `os.curdir`, as `os.path.relpath` returns it. -/
def renderPath (comps : List String) : String :=
  match comps with
  | [] => "."
  | c :: cs => cs.foldl (fun acc d => acc ++ "/" ++ d) c

/-- Length of the common component prefix of two paths. -/
def commonLen : List String → List String → Nat
  | a :: as1, b :: bs1 => if a = b then commonLen as1 bs1 + 1 else 0
  | _, _ => 0

/-- Model of `os.path.relpath(p, start)` on normalised absolute paths given as
component lists: one `".."` per non-shared component of `start`, then
the non-shared components of `p`. -/
def relpathComps (p start : List String) : List String :=
  List.replicate (start.length - commonLen p start) ".."
    ++ p.drop (commonLen p start)

/-- Index of the last `'.'` of a character list, if any. -/
def lastDotIdx : List Char → Option Nat
  | [] => none
  | c :: cs =>
    match lastDotIdx cs with
    | some i => some (i + 1)
    | none => if c = '.' then some 0 else none

/-- The stem of `os.path.splitext` on a basename: cut at the last dot,
except when every character before that dot is itself a dot (then the
name has no extension, e.g. `".rs"`). -/
def splitextStem (s : String) : String :=
  match lastDotIdx s.data with
  | none => s
  | some i =>
    if (s.data.take i).all (fun c => c = '.') then s
    else String.mk (s.data.take i)

/-- Model of `os.path.basename` of a component-list path. -/
def lastComp (p : List String) : String := (p.getLast?).getD ""

/-- The fixed lines `make_crate` writes at the top of `src/lib.rs`. -/
def libPrelude : String :=
  "// Autogenerated by //garnet/public/lib/fidl/build/make_crate.py\n"
    ++ "#[macro_use]\n"
    ++ "extern crate fidl;\n"
    ++ "extern crate fuchsia_zircon as zircon;\n"
    ++ "extern crate futures;\n"
    ++ "extern crate tokio_core;\n"
    ++ "extern crate tokio_fuchsia;\n"

/-- The `lib.rs` line written for one entry of `dep_inputs`. -/
def depChunk (ltc : List String → String) (dep : List String) : String :=
  "pub extern crate " ++ ltc dep ++ ";\n"

/-- The `lib.rs` text written for one entry of `inputs` by the first
loop: a `#[path="<rel>"]` attribute when the input's path relative to
the `lib.rs` directory is not `<basename>.rs`, then `mod <basename>;`. -/
def modChunk (libDir : List String) (i : List String) : String :=
  (if renderPath (relpathComps i libDir) ≠ splitextStem (lastComp i) ++ ".rs"
   then "#[path=\"" ++ renderPath (relpathComps i libDir) ++ "\"]\n"
   else "")
    ++ "mod " ++ splitextStem (lastComp i) ++ ";\n"

/-- The `lib.rs` line written for one entry of `inputs` by the second
loop: `pub use <basename>::*;`. -/
def useChunk (i : List String) : String :=
  "pub use " ++ splitextStem (lastComp i) ++ "::*;\n"

/-- The two files `make_crate` writes: their paths and contents. -/
structure CrateOut where
  cargoPath : List String
  cargoContent : String
  libPath : List String
  libContent : String
deriving DecidableEq, Repr

/-- Model of `make_crate(output, gen_dir, inputs, srcroot, dep_inputs)` of
`make_crate.py`, parameterised over the imported `label_to_crate`
function `ltc` (defined outside this repository's sources); `srcroot`
is accepted and never used, as in the source. -/
def make_crate (ltc : List String → String) (output gen_dir : List String)
    (inputs : List (List String)) (srcroot : String)
    (dep_inputs : List (List String)) : CrateOut :=
  let cargo_toml_dir := gen_dir ++ output
  let cargoContent :=
    "# Autogenerated by //garnet/public/lib/fidl/build/make_crate.py\n"
      ++ "[package]\n"
      ++ ("name = \"" ++ ltc output ++ "\"\n")
      ++ "version = \"0.1.0\"\n"
      ++ "\n"
      ++ "[dependencies]\n"
      ++ "futures = \"0.1\"\n"
      ++ "tokio-core = \"0.1.9\"\n"
  let lib_fn := cargo_toml_dir ++ ["src", "lib.rs"]
  let libDir := cargo_toml_dir ++ ["src"]
  let afterDeps :=
    dep_inputs.foldl (fun acc d => acc ++ depChunk ltc d) libPrelude
  let afterMods :=
    inputs.foldl (fun acc i => acc ++ modChunk libDir i) (afterDeps ++ "\n")
  let libContent :=
    inputs.foldl (fun acc i => acc ++ useChunk i) (afterMods ++ "\n")
  CrateOut.mk (cargo_toml_dir ++ ["Cargo.toml"]) cargoContent lib_fn
    libContent

/-- C9: the generated `lib.rs` is the fixed prelude, one
`pub extern crate` line per dependency, then — in input order — one mod
section chunk per input, then — again in input order — one
`pub use <basename>::*;` line per input; a mod section chunk carries a
`#[path="<rel>"]` attribute immediately before its `mod <basename>;`
declaration exactly when the input's path relative to the `lib.rs`
directory differs from `<basename>.rs` (shown by the equation for
`modChunk` at an arbitrary input and by the two concrete instances). -/
theorem C9_librs_structure (ltc : List String → String)
    (output gen_dir : List String) (inputs : List (List String))
    (srcroot : String) (dep_inputs : List (List String))
    (i : List String) :
    (make_crate ltc output gen_dir inputs srcroot dep_inputs).libContent
      = libPrelude
          ++ strConcat (dep_inputs.map (depChunk ltc)) ++ "\n"
          ++ strConcat (inputs.map (modChunk (gen_dir ++ output ++ ["src"])))
          ++ "\n"
          ++ strConcat (inputs.map useChunk)
    ∧ modChunk (gen_dir ++ output ++ ["src"]) i
      = (if renderPath (relpathComps i (gen_dir ++ output ++ ["src"]))
            = splitextStem (lastComp i) ++ ".rs"
         then "mod " ++ splitextStem (lastComp i) ++ ";\n"
         else "#[path=\""
            ++ renderPath (relpathComps i (gen_dir ++ output ++ ["src"]))
            ++ "\"]\n" ++ "mod " ++ splitextStem (lastComp i) ++ ";\n")
    ∧ modChunk ["g", "o", "src"] ["g", "o", "src", "foo.rs"] = "mod foo;\n"
    ∧ modChunk ["g", "o", "src"] ["x", "bar.rs"]
      = "#[path=\"../../../x/bar.rs\"]\n" ++ "mod bar;\n" := by
  refine ⟨?_, ?_, by decide, by decide⟩
  · simp only [make_crate, foldl_append_eq, List.append_assoc]
  · generalize gen_dir ++ output ++ ["src"] = L
    by_cases h :
      renderPath (relpathComps i L) = splitextStem (lastComp i) ++ ".rs"
    · rw [if_pos h]
      simp [modChunk, h, String.append_assoc]
    · rw [if_neg h]
      simp [modChunk, h, String.append_assoc]

/-- An abstract view of the generated `Cargo.toml`: crate name, version,
and the `[dependencies]` section as (crate, version) pairs. -/
structure CargoManifest where
  name : String
  version : String
  deps : List (String × String)
deriving DecidableEq, Repr

/-- Render a `CargoManifest` in the exact layout `make_crate` writes. -/
def renderCargo (m : CargoManifest) : String :=
  "# Autogenerated by //garnet/public/lib/fidl/build/make_crate.py\n"
    ++ "[package]\n"
    ++ ("name = \"" ++ m.name ++ "\"\n")
    ++ ("version = \"" ++ m.version ++ "\"\n")
    ++ "\n"
    ++ "[dependencies]\n"
    ++ strConcat (m.deps.map (fun d => d.1 ++ " = \"" ++ d.2 ++ "\"\n"))

/-- C10: the written `Cargo.toml` depends only on the output label (and
the fixed `label_to_crate` translation): two calls with the same output
but arbitrary different `gen_dir`, `inputs`, `srcroot` and `dep_inputs`
produce identical contents, namely the manifest whose name is
`label_to_crate(output)`, whose version is `0.1.0`, and whose dependency
section is exactly `futures = "0.1"` and `tokio-core = "0.1.9"`. -/
theorem C10_cargo_toml_depends_only_on_output
    (ltc : List String → String) (output : List String)
    (gd1 gd2 : List String) (i1 i2 : List (List String))
    (s1 s2 : String) (d1 d2 : List (List String)) :
    (make_crate ltc output gd1 i1 s1 d1).cargoContent
      = (make_crate ltc output gd2 i2 s2 d2).cargoContent
    ∧ (make_crate ltc output gd1 i1 s1 d1).cargoContent
      = renderCargo (CargoManifest.mk (ltc output) "0.1.0"
          [("futures", "0.1"), ("tokio-core", "0.1.9")]) := by
  constructor
  · rfl
  · simp only [make_crate, renderCargo, strConcat, List.map_cons,
      List.map_nil, List.foldr_cons, List.foldr_nil, String.append_assoc]
    congr 1

end Fuchsia
